import Mathlib

/-!
Shallow embedding of the two scraper scripts of this repository
(`espn_league_scraper.py` and `nfl_fantasy_stats.py`) and proofs about
their record-normalization and export pipeline.

Modelling conventions:
- Python values occurring in the records are embedded as `PyVal`
  (`None`, booleans, ints, floats-as-rationals, strings).  Floating point
  numbers are modelled as rationals; no claim depends on float rounding.
- A Python dict used as a flat record is embedded as an association list
  `Row := List (String × PyVal)` preserving insertion order, exactly the
  order of the dict literals in the source.
- The remote collaborators (the `espn_api` `League` object and the two
  Sleeper JSON payloads) are parameters of the functions that consume
  them, since the source only accesses them through attribute/key reads.
- `random.randint`/`random.uniform` draws are modelled by an oracle
  indexed by (loop iteration, call site); `randint a b` returns
  `a + oracle % (b - a + 1)`, and `uniform a b` returns
  `a + (b - a) * oracle` as in CPython.  The drawn values never influence
  control flow in the source.
- Each `save_*` function follows the same source pattern
  `if not data: print("... to save!"); return` followed by a
  `csv.DictWriter` block; this is embedded as `write_csv`, whose
  `skipped` result stands for "diagnostic printed, no file produced" and
  whose `written` result carries the header and the cell rows
  (cell stringification and quoting of the `csv` module is below the
  abstraction level of every statement here).
-/

namespace FantasyScraper

/-- Embedded Python values as they occur in the records of the two scripts. -/
inductive PyVal where
  | vNone : PyVal
  | vBool : Bool → PyVal
  | vInt : Int → PyVal
  | vNum : Rat → PyVal
  | vStr : String → PyVal
deriving DecidableEq

/-- Numeric view of a Python value: booleans are numbers in Python. -/
def toRat? : PyVal → Option Rat
  | .vBool b => some (if b then 1 else 0)
  | .vInt n => some (n : Rat)
  | .vNum q => some q
  | _ => none

/-- Python `==`: numeric cross-type equality, string equality, `None == None`. -/
def pyEq (a b : PyVal) : Bool :=
  match toRat? a, toRat? b with
  | some x, some y => x == y
  | _, _ =>
    match a, b with
    | .vStr s, .vStr t => s == t
    | .vNone, .vNone => true
    | _, _ => false

/-- Python truthiness of an embedded value. -/
def pyTruthy : PyVal → Bool
  | .vNone => false
  | .vBool b => b
  | .vInt n => n != 0
  | .vNum q => q != 0
  | .vStr s => s != ""

/-- Python `str()` of an embedded value, as used by f-string interpolation. -/
def pyStr : PyVal → String
  | .vNone => "None"
  | .vBool b => if b then "True" else "False"
  | .vInt n => toString n
  | .vNum q => toString q
  | .vStr s => s

/-- A flat record: a Python dict in insertion order. -/
abbrev Row : Type := List (String × PyVal)

/-- Keys of a record, in insertion order. -/
def keys (r : Row) : List String := r.map Prod.fst

/-- Python `dict.get(k, d)` on a record. -/
def obj_get (r : Row) (k : String) (d : PyVal) : PyVal :=
  (List.lookup k r).getD d

/-- Python `in` for lists (membership by `==`). -/
def py_mem (v : PyVal) (l : List PyVal) : Bool := l.any (fun x => pyEq v x)

/-! ### ESPN league scraper (`espn_league_scraper.py`)

The remote `League` object is embedded structurally: only the attributes
the source reads are present.  Attributes the source guards with
`hasattr` are `Option`-valued; `none` means the attribute is absent.  -/

/-- A remote roster player object (attributes read by the source). -/
structure RosterPlayer where
  name : PyVal
  position : PyVal
  proTeam : PyVal
  injured : PyVal
  injuryStatus : Option PyVal
  total_points : Option PyVal
  projected_total_points : Option PyVal
  avg_points : Option PyVal

/-- A remote team object (attributes read by the source). -/
structure Team where
  team_id : PyVal
  team_name : PyVal
  owner : PyVal
  wins : PyVal
  losses : PyVal
  ties : PyVal
  points_for : PyVal
  points_against : PyVal
  standing : PyVal
  playoff_pct : Option PyVal
  roster : List RosterPlayer

/-- A remote box score: `home_team`/`away_team` are `0` (falsy, embedded
as `none`) on a bye week; the scores are whatever the collaborator
reports. -/
structure BoxScore where
  home_team : Option Team
  home_score : PyVal
  away_team : Option Team
  away_score : PyVal

/-- Remote league settings object (attributes read by the source). -/
structure LeagueSettings where
  name : PyVal
  reg_season_count : PyVal
  playoff_team_count : PyVal
  team_count : PyVal
  playoff_seed_tie_rule : Option PyVal
  roster_size : Option PyVal

/-- The remote league session object. -/
structure League where
  teams : List Team
  current_week : Nat
  box_scores : Nat → List BoxScore
  settings : LeagueSettings

/-- State of an `ESPNLeagueScraper` instance: `league = none` until a
successful `connect_to_league`. -/
structure ESPNLeagueScraper where
  league_id : Int
  year : Int
  espn_s2 : Option String
  swid : Option String
  league : Option League

/-- Arguments passed to the `League(...)` client constructor by
`connect_to_league`: credentials are passed only on the authenticated
path. -/
structure LeagueArgs where
  league_id : Int
  year : Int
  creds : Option (String × String)
deriving DecidableEq

/-- Python truthiness of an optional string credential
(`None` and `""` are falsy). -/
def cred_truthy : Option String → Bool
  | none => false
  | some s => s != ""

/-- Arguments `connect_to_league` hands to the league client: the
source takes the authenticated branch only when
`self.espn_s2 and self.swid` is truthy. -/
def connect_to_league (league_id year : Int) (espn_s2 swid : Option String) :
    LeagueArgs :=
  if cred_truthy espn_s2 && cred_truthy swid then
    ⟨league_id, year, some (espn_s2.getD "", swid.getD "")⟩
  else
    ⟨league_id, year, none⟩

/-- The `team_info` dict literal of `get_teams_data`. -/
def team_info (t : Team) : Row :=
  [("team_id", t.team_id),
   ("team_name", t.team_name),
   ("owner", t.owner),
   ("wins", t.wins),
   ("losses", t.losses),
   ("ties", t.ties),
   ("points_for", t.points_for),
   ("points_against", t.points_against),
   ("standing", t.standing),
   ("playoff_pct", t.playoff_pct.getD (.vInt 0))]

/-- Embedding of `get_teams_data`: empty when not connected. -/
def get_teams_data (s : ESPNLeagueScraper) : List Row :=
  match s.league with
  | none => []
  | some L => L.teams.map team_info

/-- The `player_info` dict literal of `get_rosters_data`. -/
def roster_info (t : Team) (p : RosterPlayer) : Row :=
  [("team_id", t.team_id),
   ("team_name", t.team_name),
   ("player_name", p.name),
   ("position", p.position),
   ("pro_team", p.proTeam),
   ("injured", p.injured),
   ("injury_status", p.injuryStatus.getD (.vStr "")),
   ("total_points", p.total_points.getD (.vInt 0)),
   ("projected_total_points", p.projected_total_points.getD (.vInt 0)),
   ("avg_points", p.avg_points.getD (.vInt 0))]

/-- Embedding of `get_rosters_data`: empty when not connected. -/
def get_rosters_data (s : ESPNLeagueScraper) : List Row :=
  match s.league with
  | none => []
  | some L => L.teams.flatMap (fun t => t.roster.map (roster_info t))

/-- The `matchup_info` dict literal of `get_matchups_data`: a missing
side gets name `"BYE"` and id `None`; the scores are copied from the
box score unconditionally. -/
def matchup_info (week : Nat) (m : BoxScore) : Row :=
  [("week", .vInt week),
   ("home_team", match m.home_team with
     | some t => t.team_name
     | none => .vStr "BYE"),
   ("home_team_id", match m.home_team with
     | some t => t.team_id
     | none => .vNone),
   ("home_score", m.home_score),
   ("away_team", match m.away_team with
     | some t => t.team_name
     | none => .vStr "BYE"),
   ("away_team_id", match m.away_team with
     | some t => t.team_id
     | none => .vNone),
   ("away_score", m.away_score)]

/-- Embedding of `get_matchups_data`: `week = none` means the argument
was omitted and defaults to the league's current week. -/
def get_matchups_data (s : ESPNLeagueScraper) (week : Option Nat) : List Row :=
  match s.league with
  | none => []
  | some L =>
    let w := week.getD L.current_week
    (L.box_scores w).map (matchup_info w)

/-- Embedding of `get_league_settings`: empty mapping when not connected. -/
def get_league_settings (s : ESPNLeagueScraper) : Row :=
  match s.league with
  | none => []
  | some L =>
    [("name", L.settings.name),
     ("season", .vInt s.year),
     ("reg_season_count", L.settings.reg_season_count),
     ("playoff_team_count", L.settings.playoff_team_count),
     ("team_count", L.settings.team_count),
     ("playoff_seed_tie_rule", L.settings.playoff_seed_tie_rule.getD (.vStr "")),
     ("roster_size", L.settings.roster_size.getD (.vInt 0))]

/-- Result of one export call: `skipped` is the
"nothing to save" diagnostic with no file produced; `written` is a CSV
file with its header and cell rows; `writtenJson` is the JSON dump of a
mapping. -/
inductive ExportResult where
  | skipped : ExportResult
  | written : List String → List (List PyVal) → ExportResult
  | writtenJson : Row → ExportResult
deriving DecidableEq

/-- Cells of one `csv.DictWriter` body row: the record's values in
fieldname order, with the writer's default `restval` `""` for a missing
key. -/
def row_values (fieldnames : List String) (r : Row) : List PyVal :=
  fieldnames.map (fun k => (List.lookup k r).getD (.vStr ""))

/-- The common export pattern of every `save_*_to_csv` function:
skip (with a diagnostic) on an empty record list, otherwise write a
header equal to the first record's key order followed by one body row
per record. -/
def write_csv (data : List Row) : ExportResult :=
  match data with
  | [] => .skipped
  | r :: rs => .written (keys r) ((r :: rs).map (row_values (keys r)))

/-- Embedding of `save_teams_to_csv`. -/
def save_teams_to_csv (s : ESPNLeagueScraper) : ExportResult :=
  write_csv (get_teams_data s)

/-- Embedding of `save_rosters_to_csv`. -/
def save_rosters_to_csv (s : ESPNLeagueScraper) : ExportResult :=
  write_csv (get_rosters_data s)

/-- Embedding of `save_matchups_to_csv`: an omitted week defaults to the
current week when connected, else `1`. -/
def save_matchups_to_csv (s : ESPNLeagueScraper) (week : Option Nat) :
    ExportResult :=
  let w := week.getD (match s.league with
    | some L => L.current_week
    | none => 1)
  write_csv (get_matchups_data s (some w))

/-- The `all_matchups` accumulator loop of `save_all_matchups_to_csv`:
`for week in range(1, current_week + 1): all_matchups.extend(...)`. -/
def all_matchups_data (s : ESPNLeagueScraper) : List Row :=
  match s.league with
  | none => []
  | some L =>
    (List.range' 1 L.current_week).foldl
      (fun acc w => acc ++ get_matchups_data s (some w)) []

/-- Embedding of `save_all_matchups_to_csv`: prints a diagnostic and
skips when not connected, otherwise exports the accumulated matchups. -/
def save_all_matchups_to_csv (s : ESPNLeagueScraper) : ExportResult :=
  match s.league with
  | none => .skipped
  | some _ => write_csv (all_matchups_data s)

/-- Embedding of `save_league_info_to_json`: dumps the settings mapping
unconditionally, with no emptiness check. -/
def save_league_info_to_json (s : ESPNLeagueScraper) : ExportResult :=
  .writtenJson (get_league_settings s)

/-! ### NFL fantasy stats scraper (`nfl_fantasy_stats.py`)

The Sleeper payloads are embedded as association lists keyed by the
string player id, each value being a raw JSON object (`Row`). -/

/-- The `player_data` dict literal of `fetch_all_players`; the name is
the stripped f-string concatenation of first and last name. -/
def player_data_of (player_id : String) (info : Row) : Row :=
  [("player_id", .vStr player_id),
   ("name", .vStr (String.trim
      (pyStr (obj_get info "first_name" (.vStr "")) ++ " " ++
       pyStr (obj_get info "last_name" (.vStr ""))))),
   ("position", obj_get info "position" (.vStr "")),
   ("jersey", obj_get info "number" (.vStr "")),
   ("team", obj_get info "team" (.vStr "FA")),
   ("age", obj_get info "age" (.vStr "")),
   ("height", obj_get info "height" (.vStr "")),
   ("weight", obj_get info "weight" (.vStr "")),
   ("college", obj_get info "college" (.vStr "")),
   ("years_exp", obj_get info "years_exp" (.vInt 0)),
   ("status", obj_get info "status" (.vStr "")),
   ("injury_status", obj_get info "injury_status" (.vStr ""))]

/-- The filter condition of `fetch_all_players`:
`player_info.get('active', False) and player_info.get('sport') == 'nfl'`. -/
def is_active_nfl (info : Row) : Bool :=
  pyTruthy (obj_get info "active" (.vBool false)) &&
    pyEq (obj_get info "sport" .vNone) (.vStr "nfl")

/-- Embedding of `fetch_all_players` applied to the bulk directory
payload: early empty return on an empty payload, otherwise keep exactly
the active NFL entries. -/
def fetch_all_players (players_dict : List (String × Row)) : List Row :=
  match players_dict with
  | [] => []
  | _ =>
    players_dict.filterMap fun e =>
      if is_active_nfl e.2 then some (player_data_of e.1 e.2) else none

/-- The fantasy-relevant position allow-list of
`get_fantasy_stats_for_all_players`. -/
def relevant_positions : List PyVal :=
  [.vStr "QB", .vStr "RB", .vStr "WR", .vStr "TE", .vStr "K", .vStr "DEF"]

/-- Python `all_stats.get(player_id, {})`: the season-stats payload is
keyed by string ids, so a non-string key always misses. -/
def stats_get (all_stats : List (String × Row)) (k : PyVal) : Row :=
  match k with
  | .vStr s => (List.lookup s all_stats).getD []
  | _ => []

/-- The `fantasy_record` dict literal of
`get_fantasy_stats_for_all_players`: every counter defaults to `0` via
`player_stats.get(..., 0)`. -/
def fantasy_record_of (season : String) (all_stats : List (String × Row))
    (player : Row) : Row :=
  let player_id := obj_get player "player_id" .vNone
  let player_stats := stats_get all_stats player_id
  [("player_id", player_id),
   ("name", obj_get player "name" .vNone),
   ("team", obj_get player "team" .vNone),
   ("position", obj_get player "position" (.vStr "")),
   ("season", .vStr season),
   ("games_played", obj_get player_stats "gp" (.vInt 0)),
   ("passing_attempts", obj_get player_stats "pass_att" (.vInt 0)),
   ("passing_completions", obj_get player_stats "pass_cmp" (.vInt 0)),
   ("passing_yards", obj_get player_stats "pass_yd" (.vInt 0)),
   ("passing_tds", obj_get player_stats "pass_td" (.vInt 0)),
   ("interceptions", obj_get player_stats "pass_int" (.vInt 0)),
   ("rushing_attempts", obj_get player_stats "rush_att" (.vInt 0)),
   ("rushing_yards", obj_get player_stats "rush_yd" (.vInt 0)),
   ("rushing_tds", obj_get player_stats "rush_td" (.vInt 0)),
   ("targets", obj_get player_stats "rec_tgt" (.vInt 0)),
   ("receptions", obj_get player_stats "rec" (.vInt 0)),
   ("receiving_yards", obj_get player_stats "rec_yd" (.vInt 0)),
   ("receiving_tds", obj_get player_stats "rec_td" (.vInt 0)),
   ("fumbles", obj_get player_stats "fum" (.vInt 0)),
   ("fumbles_lost", obj_get player_stats "fum_lost" (.vInt 0)),
   ("fantasy_points_ppr", obj_get player_stats "pts_ppr" (.vInt 0)),
   ("fantasy_points_half_ppr", obj_get player_stats "pts_half_ppr" (.vInt 0)),
   ("fantasy_points_std", obj_get player_stats "pts_std" (.vInt 0))]

/-- Whether a loaded player record survives the position allow-list
(`position not in relevant_positions: continue`). -/
def position_retained (player : Row) : Bool :=
  py_mem (obj_get player "position" (.vStr "")) relevant_positions

/-- Embedding of `get_fantasy_stats_for_all_players` applied to the
loaded players and the fetched season-stats payload.  With no players
loaded the source prints a diagnostic and falls off the function body,
returning Python `None`, embedded as `none`. -/
def get_fantasy_stats_for_all_players (players : List Row)
    (all_stats : List (String × Row)) (season : String) : Option (List Row) :=
  match players with
  | [] => none
  | _ =>
    some (players.filterMap fun p =>
      if position_retained p then
        some (fantasy_record_of season all_stats p)
      else none)

/-- Embedding of `save_players_to_csv` applied to the loaded players. -/
def save_players_to_csv (players : List Row) : ExportResult :=
  write_csv players

/-- Embedding of `save_fantasy_stats_to_csv` applied to the computed
fantasy stats. -/
def save_fantasy_stats_to_csv (fantasy_stats : List Row) : ExportResult :=
  write_csv fantasy_stats

/-- The full key list of a fantasy record, for stating that no key of
the record shape is ever missing. -/
def fantasy_keys : List String :=
  ["player_id", "name", "team", "position", "season", "games_played",
   "passing_attempts", "passing_completions", "passing_yards",
   "passing_tds", "interceptions", "rushing_attempts", "rushing_yards",
   "rushing_tds", "targets", "receptions", "receiving_yards",
   "receiving_tds", "fumbles", "fumbles_lost", "fantasy_points_ppr",
   "fantasy_points_half_ppr", "fantasy_points_std"]

/-- The numeric counter keys of a fantasy record (games played, the
passing/rushing/receiving/fumble counters and the three fantasy-point
totals). -/
def counter_keys : List String :=
  ["games_played", "passing_attempts", "passing_completions",
   "passing_yards", "passing_tds", "interceptions", "rushing_attempts",
   "rushing_yards", "rushing_tds", "targets", "receptions",
   "receiving_yards", "receiving_tds", "fumbles", "fumbles_lost",
   "fantasy_points_ppr", "fantasy_points_half_ppr", "fantasy_points_std"]

/-! ### Fallback synthetic-data generator (`generate_sample_data`)

The hard-coded rosters are transcribed verbatim from the source.  The
`random` module is modelled by an oracle indexed by the loop iteration
and the call site within the iteration: `random.randint(a, b)` becomes
`a + oracle % (b - a + 1)` and `round(random.uniform(a, b), 2)` becomes
`a + (b - a) * u` with `u` an oracle draw clamped to `[0, 1]`, rounded
to two decimals (CPython computes `uniform` exactly this way; float
rounding is approximated on rationals).  No drawn value influences
control flow in the source. -/

def qbs : List (String × String × Nat) := [
("Patrick Mahomes", "KC", 15), ("Josh Allen", "BUF", 17), ("Jalen Hurts", "PHI", 1),
("Dak Prescott", "DAL", 4), ("Joe Burrow", "CIN", 9), ("Lamar Jackson", "BAL", 8),
("Justin Herbert", "LAC", 10), ("Trevor Lawrence", "JAX", 16), ("Brock Purdy", "SF", 13),
("Tua Tagovailoa", "MIA", 1), ("C.J. Stroud", "HOU", 7), ("Jordan Love", "GB", 10),
("Jared Goff", "DET", 16), ("Kirk Cousins", "ATL", 18), ("Geno Smith", "SEA", 7),
("Baker Mayfield", "TB", 6), ("Matthew Stafford", "LAR", 9), ("Russell Wilson", "PIT", 3),
("Anthony Richardson", "IND", 5), ("Derek Carr", "NO", 4), ("Kyler Murray", "ARI", 1),
("Bryce Young", "CAR", 9), ("Aaron Rodgers", "NYJ", 8), ("Daniel Jones", "NYG", 8),
("Deshaun Watson", "CLE", 4), ("Sam Howell", "WAS", 14), ("Will Levis", "TEN", 8),
("Jacoby Brissett", "NE", 7), ("Aidan O\x27Connell", "LV", 12), ("Bo Nix", "DEN", 10),
("Justin Fields", "PIT", 2), ("Caleb Williams", "CHI", 18)

]

def rbs : List (String × String × Nat) := [
("Christian McCaffrey", "SF", 23), ("Derrick Henry", "BAL", 22), ("Saquon Barkley", "PHI", 26),
("Breece Hall", "NYJ", 20), ("Bijan Robinson", "ATL", 7), ("Jahmyr Gibbs", "DET", 26),
("Travis Etienne", "JAX", 1), ("Josh Jacobs", "GB", 8), ("Kenneth Walker", "SEA", 9),
("Alvin Kamara", "NO", 41), ("Joe Mixon", "HOU", 28), ("David Montgomery", "DET", 5),
("Isiah Pacheco", "KC", 10), ("De\x27Von Achane", "MIA", 28), ("Rachaad White", "TB", 29),
("James Conner", "ARI", 6), ("Kyren Williams", "LAR", 23), ("Tony Pollard", "TEN", 20),
("Raheem Mostert", "MIA", 31), ("Najee Harris", "PIT", 22), ("D\x27Andre Swift", "CHI", 4),
("Rhamondre Stevenson", "NE", 38), ("Jonathan Taylor", "IND", 28), ("Aaron Jones", "MIN", 33),
("Javonte Williams", "DEN", 33), ("James Cook", "BUF", 4), ("Zack Moss", "CIN", 23),
("Jerome Ford", "CLE", 34), ("Chuba Hubbard", "CAR", 30), ("Brian Robinson", "WAS", 8),
("Zamir White", "LV", 35), ("Gus Edwards", "LAC", 35), ("Tyjae Spears", "TEN", 2),
("Ezekiel Elliott", "DAL", 15), ("Antonio Gibson", "NE", 14), ("Miles Sanders", "CAR", 10),
("Khalil Herbert", "CHI", 24), ("Tyler Allgeier", "ATL", 25), ("Dameon Pierce", "HOU", 31),
("AJ Dillon", "GB", 28), ("Cordarrelle Patterson", "PIT", 84), ("Latavius Murray", "BUF", 28),
("Zach Charbonnet", "SEA", 26), ("Roschon Johnson", "CHI", 23), ("Tank Bigsby", "JAX", 4),
("Trey Sermon", "IND", 28), ("Craig Reynolds", "DET", 46), ("Devin Singletary", "NYG", 26),
("Damien Harris", "BUF", 37), ("Samaje Perine", "DEN", 25), ("Justice Hill", "BAL", 43),
("Alexander Mattison", "LV", 33), ("Clyde Edwards-Helaire", "KC", 25), ("Ke\x27Shawn Vaughn", "TB", 21),
("Chase Edmonds", "TB", 22), ("Joshua Kelley", "LAC", 27), ("Ty Johnson", "BUF", 25),
("Michael Carter", "ARI", 32), ("Elijah Mitchell", "SF", 25), ("Cam Akers", "MIN", 23),
("Jamaal Williams", "NO", 30), ("Kareem Hunt", "CLE", 27), ("Melvin Gordon", "BAL", 25)

]

def wrs : List (String × String × Nat) := [
("Tyreek Hill", "MIA", 10), ("CeeDee Lamb", "DAL", 88), ("Amon-Ra St. Brown", "DET", 14),
("A.J. Brown", "PHI", 11), ("Justin Jefferson", "MIN", 18), ("Ja\x27Marr Chase", "CIN", 1),
("Stefon Diggs", "HOU", 1), ("Davante Adams", "LV", 17), ("Puka Nacua", "LAR", 17),
("Nico Collins", "HOU", 12), ("Garrett Wilson", "NYJ", 5), ("Brandon Aiyuk", "SF", 11),
("DK Metcalf", "SEA", 14), ("DeVonta Smith", "PHI", 6), ("Cooper Kupp", "LAR", 10),
("Mike Evans", "TB", 13), ("Chris Olave", "NO", 12), ("DJ Moore", "CHI", 2),
("Deebo Samuel", "SF", 19), ("Keenan Allen", "CHI", 13), ("Calvin Ridley", "TEN", 0),
("Amari Cooper", "CLE", 2), ("Jaylen Waddle", "MIA", 17), ("Terry McLaurin", "WAS", 17),
("Christian Kirk", "JAX", 13), ("Diontae Johnson", "CAR", 5), ("Marquise Brown", "KC", 5),
("Drake London", "ATL", 5), ("Chris Godwin", "TB", 14), ("DeAndre Hopkins", "TEN", 10),
("Michael Pittman", "IND", 11), ("Zay Flowers", "BAL", 4), ("George Pickens", "PIT", 14),
("Jakobi Meyers", "LV", 16), ("Tyler Lockett", "SEA", 16), ("Courtland Sutton", "DEN", 14),
("Jordan Addison", "MIN", 3), ("Rashee Rice", "KC", 4), ("Tank Dell", "HOU", 3),
("Jaxon Smith-Njigba", "SEA", 11), ("Jameson Williams", "DET", 9), ("Quentin Johnston", "LAC", 1),
("Rashid Shaheed", "NO", 22), ("Joshua Palmer", "LAC", 5), ("Romeo Doubs", "GB", 87),
("Darnell Mooney", "ATL", 1), ("Curtis Samuel", "BUF", 10), ("Jerry Jeudy", "CLE", 3),
("Gabe Davis", "JAX", 13), ("Brandin Cooks", "DAL", 3), ("Michael Thomas", "NO", 13),
("Tyler Boyd", "TEN", 83), ("Elijah Moore", "CLE", 8), ("Kadarius Toney", "KC", 19),
("K.J. Osborn", "NE", 17), ("Marquez Valdes-Scantling", "BUF", 11), ("Mecole Hardman", "KC", 12),
("Van Jefferson", "PIT", 19), ("Treylon Burks", "TEN", 16), ("Skyy Moore", "KC", 24),
("Wan\x27Dale Robinson", "NYG", 17), ("Josh Downs", "IND", 1), ("Jayden Reed", "GB", 11),
("Michael Wilson", "ARI", 14), ("Rondale Moore", "ARI", 4), ("Marvin Mims", "DEN", 19),
("Jonathan Mingo", "CAR", 15), ("Demario Douglas", "NE", 81), ("Tutu Atwell", "LAR", 15),
("Xavier Legette", "CAR", 17), ("Ricky Pearsall", "SF", 14), ("Ladd McConkey", "LAC", 15),
("Keon Coleman", "BUF", 0), ("Rome Odunze", "CHI", 15), ("Brian Thomas Jr", "JAX", 7),
("Adonai Mitchell", "IND", 10), ("Xavier Worthy", "KC", 1), ("Malachi Corley", "NYJ", 14),
("Malik Nabers", "NYG", 1), ("Marvin Harrison Jr", "ARI", 18), ("Allen Lazard", "NYJ", 10)

]

def tes : List (String × String × Nat) := [
("Travis Kelce", "KC", 87), ("Sam LaPorta", "DET", 87), ("Mark Andrews", "BAL", 89),
("George Kittle", "SF", 85), ("T.J. Hockenson", "MIN", 87), ("Evan Engram", "JAX", 17),
("Kyle Pitts", "ATL", 8), ("David Njoku", "CLE", 85), ("Dallas Goedert", "PHI", 88),
("Darren Waller", "NYG", 12), ("Dalton Kincaid", "BUF", 86), ("Jake Ferguson", "DAL", 87),
("Cole Kmet", "CHI", 85), ("Pat Freiermuth", "PIT", 88), ("Tyler Conklin", "NYJ", 83),
("Taysom Hill", "NO", 7), ("Hunter Henry", "NE", 85), ("Jonnu Smith", "MIA", 9),
("Dalton Schultz", "HOU", 86), ("Chigoziem Okonkwo", "TEN", 85), ("Juwan Johnson", "NO", 83),
("Luke Musgrave", "GB", 88), ("Michael Mayer", "LV", 87), ("Zach Ertz", "WAS", 86),
("Noah Fant", "SEA", 87), ("Hayden Hurst", "LAC", 88), ("Tyler Higbee", "LAR", 89),
("Gerald Everett", "CHI", 81), ("Cade Otton", "TB", 88), ("Isaiah Likely", "BAL", 80),
("Tucker Kraft", "GB", 85), ("Brock Bowers", "LV", 89), ("Trey McBride", "ARI", 85),
("Ja\x27Tavion Sanders", "CAR", 87), ("Theo Johnson", "NYG", 85), ("Ben Sinnott", "WAS", 87),
("Erick All", "CIN", 83), ("Brenton Strange", "JAX", 83), ("Luke Schoonmaker", "DAL", 86),
("Will Dissly", "LAC", 89), ("Irv Smith Jr", "HOU", 81), ("Mo Alie-Cox", "IND", 81)

]

/-- Oracle supplying the outcomes of the `random` calls: `nat i s` is
the integer draw and `unit i s` the uniform draw of call site `s` in
loop iteration `i`. -/
structure RandomOracle where
  nat : Nat → Nat → Nat
  unit : Nat → Nat → Rat

/-- Model of `random.randint(a, b)` at call site `(i, slot)`: some value
in `[a, b]`. -/
def randint (o : RandomOracle) (i slot a b : Nat) : Nat :=
  a + o.nat i slot % (b - a + 1)

/-- Rounding to two decimal places on rationals, modelling
`round(x, 2)`. -/
def round2 (q : Rat) : Rat :=
  ((Int.floor (q * 100 + 1 / 2) : Int) : Rat) / 100

/-- Model of `round(random.uniform(a, b), 2)` at call site `(i, slot)`. -/
def uniform_round2 (o : RandomOracle) (i slot : Nat) (a b : Rat) : Rat :=
  round2 (a + (b - a) * min (max (o.unit i slot) 0) 1)

/-- Names of the hard-coded QBs (`[q[0] for q in qbs]`). -/
def qb_names : List String := qbs.map (fun t => t.1)

/-- Names of the hard-coded RBs. -/
def rb_names : List String := rbs.map (fun t => t.1)

/-- Names of the hard-coded WRs. -/
def wr_names : List String := wrs.map (fun t => t.1)

/-- Position classification of the generator loop: membership of the
name in the QB/RB/WR name lists, with TE as the fallthrough. -/
def sample_position (name : String) : String :=
  if qb_names.contains name then "QB"
  else if rb_names.contains name then "RB"
  else if wr_names.contains name then "WR"
  else "TE"

/-- The `player_data` dict literal of the generator loop at iteration
`i` for roster entry `e = (name, team, jersey)`; the id is
`str(1000 + i)` because `player_id` starts at `1000` and is incremented
once per iteration. -/
def sample_player_row (o : RandomOracle) (i : Nat) (e : String × String × Nat) :
    Row :=
  [("player_id", .vStr (Nat.repr (1000 + i))),
   ("name", .vStr e.1),
   ("position", .vStr (sample_position e.1)),
   ("jersey", .vStr (Nat.repr e.2.2)),
   ("team", .vStr e.2.1),
   ("age", .vInt (randint o i 0 23 32)),
   ("height", .vStr (Nat.repr (randint o i 1 69 78) ++ "\"")),
   ("weight", .vStr (Nat.repr (randint o i 2 185 250) ++ " lbs")),
   ("college", .vStr "Sample College"),
   ("years_exp", .vInt (randint o i 3 1 10)),
   ("status", .vStr "Active"),
   ("injury_status", .vStr "")]

/-- The position-dependent `stat_data` dict literal of the generator
loop at iteration `i` for roster entry `e`. -/
def sample_stat_row (o : RandomOracle) (i : Nat) (e : String × String × Nat) :
    Row :=
  let name := e.1
  let team := e.2.1
  let pos := sample_position name
  if pos == "QB" then
    [("player_id", .vStr (Nat.repr (1000 + i))),
     ("name", .vStr name),
     ("team", .vStr team),
     ("position", .vStr pos),
     ("season", .vStr "2024"),
     ("games_played", .vInt (randint o i 4 14 17)),
     ("passing_attempts", .vInt (randint o i 5 400 600)),
     ("passing_completions", .vInt (randint o i 6 280 420)),
     ("passing_yards", .vInt (randint o i 7 3500 5000)),
     ("passing_tds", .vInt (randint o i 8 25 45)),
     ("interceptions", .vInt (randint o i 9 5 15)),
     ("rushing_attempts", .vInt (randint o i 10 30 80)),
     ("rushing_yards", .vInt (randint o i 11 200 600)),
     ("rushing_tds", .vInt (randint o i 12 2 8)),
     ("targets", .vInt 0),
     ("receptions", .vInt 0),
     ("receiving_yards", .vInt 0),
     ("receiving_tds", .vInt 0),
     ("fumbles", .vInt (randint o i 13 0 3)),
     ("fumbles_lost", .vInt (randint o i 14 0 2)),
     ("fantasy_points_ppr", .vNum (uniform_round2 o i 15 280 380)),
     ("fantasy_points_half_ppr", .vNum (uniform_round2 o i 16 270 370)),
     ("fantasy_points_std", .vNum (uniform_round2 o i 17 260 360))]
  else if pos == "RB" then
    [("player_id", .vStr (Nat.repr (1000 + i))),
     ("name", .vStr name),
     ("team", .vStr team),
     ("position", .vStr pos),
     ("season", .vStr "2024"),
     ("games_played", .vInt (randint o i 4 12 17)),
     ("passing_attempts", .vInt 0),
     ("passing_completions", .vInt 0),
     ("passing_yards", .vInt 0),
     ("passing_tds", .vInt 0),
     ("interceptions", .vInt 0),
     ("rushing_attempts", .vInt (randint o i 5 180 320)),
     ("rushing_yards", .vInt (randint o i 6 900 1800)),
     ("rushing_tds", .vInt (randint o i 7 6 18)),
     ("targets", .vInt (randint o i 8 30 90)),
     ("receptions", .vInt (randint o i 9 25 75)),
     ("receiving_yards", .vInt (randint o i 10 200 800)),
     ("receiving_tds", .vInt (randint o i 11 1 6)),
     ("fumbles", .vInt (randint o i 12 0 3)),
     ("fumbles_lost", .vInt (randint o i 13 0 2)),
     ("fantasy_points_ppr", .vNum (uniform_round2 o i 14 180 350)),
     ("fantasy_points_half_ppr", .vNum (uniform_round2 o i 15 170 330)),
     ("fantasy_points_std", .vNum (uniform_round2 o i 16 150 300))]
  else if pos == "WR" then
    [("player_id", .vStr (Nat.repr (1000 + i))),
     ("name", .vStr name),
     ("team", .vStr team),
     ("position", .vStr pos),
     ("season", .vStr "2024"),
     ("games_played", .vInt (randint o i 4 14 17)),
     ("passing_attempts", .vInt 0),
     ("passing_completions", .vInt 0),
     ("passing_yards", .vInt 0),
     ("passing_tds", .vInt 0),
     ("interceptions", .vInt 0),
     ("rushing_attempts", .vInt (randint o i 5 0 15)),
     ("rushing_yards", .vInt (randint o i 6 0 100)),
     ("rushing_tds", .vInt (randint o i 7 0 2)),
     ("targets", .vInt (randint o i 8 100 180)),
     ("receptions", .vInt (randint o i 9 70 130)),
     ("receiving_yards", .vInt (randint o i 10 900 1800)),
     ("receiving_tds", .vInt (randint o i 11 6 15)),
     ("fumbles", .vInt (randint o i 12 0 2)),
     ("fumbles_lost", .vInt (randint o i 13 0 1)),
     ("fantasy_points_ppr", .vNum (uniform_round2 o i 14 200 370)),
     ("fantasy_points_half_ppr", .vNum (uniform_round2 o i 15 180 340)),
     ("fantasy_points_std", .vNum (uniform_round2 o i 16 160 310))]
  else
    [("player_id", .vStr (Nat.repr (1000 + i))),
     ("name", .vStr name),
     ("team", .vStr team),
     ("position", .vStr pos),
     ("season", .vStr "2024"),
     ("games_played", .vInt (randint o i 4 14 17)),
     ("passing_attempts", .vInt 0),
     ("passing_completions", .vInt 0),
     ("passing_yards", .vInt 0),
     ("passing_tds", .vInt 0),
     ("interceptions", .vInt 0),
     ("rushing_attempts", .vInt 0),
     ("rushing_yards", .vInt 0),
     ("rushing_tds", .vInt 0),
     ("targets", .vInt (randint o i 5 80 150)),
     ("receptions", .vInt (randint o i 6 60 110)),
     ("receiving_yards", .vInt (randint o i 7 700 1400)),
     ("receiving_tds", .vInt (randint o i 8 4 12)),
     ("fumbles", .vInt (randint o i 9 0 2)),
     ("fumbles_lost", .vInt (randint o i 10 0 1)),
     ("fantasy_points_ppr", .vNum (uniform_round2 o i 11 160 280)),
     ("fantasy_points_half_ppr", .vNum (uniform_round2 o i 12 140 250)),
     ("fantasy_points_std", .vNum (uniform_round2 o i 13 120 220))]

/-- The concatenated roster the generator loop iterates over
(`qbs + rbs + wrs + tes`). -/
def sample_roster : List (String × String × Nat) := qbs ++ rbs ++ wrs ++ tes

/-- Embedding of `generate_sample_data`: the single loop appending one
player record and one stat record per roster entry is split into the
two resulting lists. -/
def generate_sample_data (o : RandomOracle) : List Row × List Row :=
  (sample_roster.enum.map (fun e => sample_player_row o e.1 e.2),
   sample_roster.enum.map (fun e => sample_stat_row o e.1 e.2))

/-! ### Concrete fixtures for witness and counterexample theorems -/

/-- A scraper instance on which `connect_to_league` never succeeded
(`self.league is None`). -/
def disconnected_scraper : ESPNLeagueScraper :=
  ⟨428501878, 2024, none, none, none⟩

/-- A concrete settings object for the test league. -/
def sample_settings : LeagueSettings :=
  ⟨.vStr "Test League", .vInt 14, .vInt 4, .vInt 10, none, none⟩

/-- A concrete team for the test league. -/
def sample_team : Team :=
  ⟨.vInt 1, .vStr "Sharks", .vStr "Alex", .vInt 3, .vInt 2, .vInt 0,
   .vNum 512, .vNum 480, .vInt 1, some (.vNum (1 / 2)), []⟩

/-- A bye-week box score: the away side is missing and the collaborator
reports an away score of `0`. -/
def bye_box : BoxScore := ⟨some sample_team, .vNum 101, none, .vInt 0⟩

/-- A connected test league, current week 3, whose every week reports
the single bye box score. -/
def bye_league : League :=
  ⟨[sample_team], 3, fun _ => [bye_box], sample_settings⟩

/-- A scraper connected to `bye_league`. -/
def bye_scraper : ESPNLeagueScraper := ⟨1, 2024, none, none, some bye_league⟩

/-- An oracle whose draws are all zero, for witness instantiation. -/
def oracle0 : RandomOracle := ⟨fun _ _ => 0, fun _ _ => 0⟩

/-- A concrete flat record for the exporter witness. -/
def demo_row1 : Row := [("a", .vInt 1), ("b", .vStr "x")]

/-- A second concrete flat record with the same key set. -/
def demo_row2 : Row := [("a", .vInt 2), ("b", .vStr "y")]

/-- A loaded QB player record whose id is absent from the stats payload,
for the stats-join witness. -/
def demo_player : Row :=
  [("player_id", .vStr "42"), ("name", .vStr "Demo QB"),
   ("position", .vStr "QB"), ("team", .vStr "FA")]

/-- A bulk-directory payload with one active NFL entry and one inactive
entry, for the filter witness. -/
def demo_dict : List (String × Row) :=
  [("1", [("active", .vBool true), ("sport", .vStr "nfl"),
          ("first_name", .vStr "Ann"), ("last_name", .vStr "Ball")]),
   ("2", [("active", .vBool false), ("sport", .vStr "nfl")])]

/-- Numeric value of a decimal string, used to transfer distinctness of
the generated player ids from `Nat` to `String`. -/
def digits_val (s : String) : Nat :=
  s.data.foldl (fun a c => a * 10 + (c.toNat - 48)) 0

/-! ### Helper lemmas -/

theorem lookup_eq_some_of_mem_keys {r : Row} {k : String} (h : k ∈ keys r) :
    ∃ v, List.lookup k r = some v := by
  induction r with
  | nil => simp [keys] at h
  | cons p t ih =>
    by_cases hk : k = p.1
    · exact ⟨p.2, by simp [List.lookup, hk]⟩
    · have hm : k ∈ keys t := by
        simp only [keys, List.map_cons, List.mem_cons] at h
        exact h.resolve_left hk
      obtain ⟨v, hv⟩ := ih hm
      have hb : (k == p.1) = false := beq_eq_false_iff_ne.mpr hk
      exact ⟨v, by simp [List.lookup, hb, hv]⟩

theorem lookup_eq_none_of_not_mem_keys {r : Row} {k : String}
    (h : k ∉ keys r) : List.lookup k r = none := by
  induction r with
  | nil => rfl
  | cons p t ih =>
    simp only [keys, List.map_cons, List.mem_cons, not_or] at h
    have hb : (k == p.1) = false := beq_eq_false_iff_ne.mpr h.1
    simp [List.lookup, hb, ih h.2]

theorem lookup_zip_map (l : List String) (f : String → PyVal) (k : String) :
    List.lookup k (l.zip (l.map f)) =
      if k ∈ l then some (f k) else none := by
  induction l with
  | nil => simp
  | cons a t ih =>
    by_cases h : k = a
    · subst h
      simp [List.zip_cons_cons, List.lookup]
    · have hb : (k == a) = false := beq_eq_false_iff_ne.mpr h
      simp only [List.zip_cons_cons, List.lookup, hb]
      show List.lookup k (t.zip (List.map f t)) = _
      rw [ih]
      simp [List.mem_cons, h]

theorem filterMap_ite {α β : Type} (p : α → Bool) (f : α → β) (l : List α) :
    (l.filterMap fun a => if p a then some (f a) else none) =
      (l.filter p).map f := by
  induction l with
  | nil => rfl
  | cons a t ih =>
    by_cases h : p a <;>
      simp [List.filterMap_cons, List.filter_cons, h, ih]

theorem foldl_append_eq_flatMap {α β : Type} (f : α → List β) :
    ∀ (l : List α) (init : List β),
      l.foldl (fun acc a => acc ++ f a) init = init ++ l.flatMap f := by
  intro l
  induction l with
  | nil => simp
  | cons a t ih =>
    intro init
    simp [List.foldl_cons, ih, List.flatMap_cons, List.append_assoc]

/-! ### Claim theorems -/

/-- C7: a connector supplied with exactly one of the two credentials
(only `espn_s2` or only `swid`) behaves identically to one supplied with
zero credentials: the league client receives the public-mode arguments,
with no credential pair. -/
theorem single_credential_public_mode (league_id year : Int)
    (espn_s2 swid : Option String) (h : espn_s2 = none ∨ swid = none) :
    connect_to_league league_id year espn_s2 swid =
      connect_to_league league_id year none none ∧
    (connect_to_league league_id year espn_s2 swid).creds = none := by
  rcases h with h | h <;> subst h <;>
    simp [connect_to_league, cred_truthy]

/-- Witness for C7 at a concrete single credential. -/
theorem single_credential_public_mode_witness :
    connect_to_league 428501878 2024 (some "espn-s2-cookie") none =
      connect_to_league 428501878 2024 none none ∧
    (connect_to_league 428501878 2024 (some "espn-s2-cookie") none).creds =
      none :=
  single_credential_public_mode 428501878 2024 (some "espn-s2-cookie") none
    (Or.inr rfl)

/-- C8: every tabular (CSV) export operation invoked on an empty record
sequence writes no file and reports the "nothing to save" condition
instead of producing a header-only file. -/
theorem empty_tabular_export_skipped (s : ESPNLeagueScraper)
    (players fantasy_stats : List Row) :
    (get_teams_data s = [] → save_teams_to_csv s = .skipped) ∧
    (get_rosters_data s = [] → save_rosters_to_csv s = .skipped) ∧
    (∀ w : Nat, get_matchups_data s (some w) = [] →
      save_matchups_to_csv s (some w) = .skipped) ∧
    (get_matchups_data s none = [] →
      save_matchups_to_csv s none = .skipped) ∧
    (all_matchups_data s = [] → save_all_matchups_to_csv s = .skipped) ∧
    (players = [] → save_players_to_csv players = .skipped) ∧
    (fantasy_stats = [] → save_fantasy_stats_to_csv fantasy_stats = .skipped) := by
  refine ⟨?_, ?_, ?_, ?_, ?_, ?_, ?_⟩
  · intro h; simp [save_teams_to_csv, h, write_csv]
  · intro h; simp [save_rosters_to_csv, h, write_csv]
  · intro w h; simp [save_matchups_to_csv, h, write_csv]
  · intro h
    rcases hL : s.league with _ | L
    · simp [save_matchups_to_csv, hL, get_matchups_data, write_csv]
    · have : get_matchups_data s (some L.current_week) = [] := by
        simpa [get_matchups_data, hL] using h
      simp [save_matchups_to_csv, hL, this, write_csv]
  · intro h
    rcases hL : s.league with _ | L
    · simp [save_all_matchups_to_csv, hL]
    · simp [save_all_matchups_to_csv, hL, h, write_csv]
  · intro h; simp [save_players_to_csv, h, write_csv]
  · intro h; simp [save_fantasy_stats_to_csv, h, write_csv]

/-- Witness for C8 on a disconnected scraper and empty stats lists. -/
theorem empty_tabular_export_skipped_witness :
    save_teams_to_csv disconnected_scraper = .skipped ∧
    save_all_matchups_to_csv disconnected_scraper = .skipped ∧
    save_fantasy_stats_to_csv [] = .skipped :=
  ⟨(empty_tabular_export_skipped disconnected_scraper [] []).1 rfl,
   (empty_tabular_export_skipped disconnected_scraper [] []).2.2.2.2.1 rfl,
   (empty_tabular_export_skipped disconnected_scraper [] []).2.2.2.2.2.2 rfl⟩

/-- C4 counterexample: with no league connected the settings mapping is
empty, yet `save_league_info_to_json` still writes its file (a JSON dump
of the empty mapping) — the league-settings export performs no
empty-result check, contradicting the claim for that export call. -/
theorem league_info_export_writes_when_empty :
    get_league_settings disconnected_scraper = [] ∧
    save_league_info_to_json disconnected_scraper ≠ .skipped :=
  ⟨rfl, by decide⟩

/-- C4 amended: each of the six CSV exports detects an empty result
before writing, logs a diagnostic and skips the file, but the
league-settings JSON export is the exception: it dumps the settings
mapping unconditionally, even when empty. -/
theorem empty_exports_detected (s : ESPNLeagueScraper)
    (players fantasy_stats : List Row) :
    (get_teams_data s = [] → save_teams_to_csv s = .skipped) ∧
    (get_rosters_data s = [] → save_rosters_to_csv s = .skipped) ∧
    (∀ w : Nat, get_matchups_data s (some w) = [] →
      save_matchups_to_csv s (some w) = .skipped) ∧
    (all_matchups_data s = [] → save_all_matchups_to_csv s = .skipped) ∧
    (players = [] → save_players_to_csv players = .skipped) ∧
    (fantasy_stats = [] → save_fantasy_stats_to_csv fantasy_stats = .skipped) ∧
    save_league_info_to_json s = .writtenJson (get_league_settings s) := by
  refine ⟨?_, ?_, ?_, ?_, ?_, ?_, rfl⟩
  · intro h; simp [save_teams_to_csv, h, write_csv]
  · intro h; simp [save_rosters_to_csv, h, write_csv]
  · intro w h; simp [save_matchups_to_csv, h, write_csv]
  · intro h
    rcases hL : s.league with _ | L
    · simp [save_all_matchups_to_csv, hL]
    · simp [save_all_matchups_to_csv, hL, h, write_csv]
  · intro h; simp [save_players_to_csv, h, write_csv]
  · intro h; simp [save_fantasy_stats_to_csv, h, write_csv]

/-- Witness for the amended C4 on a disconnected scraper. -/
theorem empty_exports_detected_witness :
    save_rosters_to_csv disconnected_scraper = .skipped ∧
    save_matchups_to_csv disconnected_scraper (some 1) = .skipped ∧
    save_league_info_to_json disconnected_scraper =
      .writtenJson (get_league_settings disconnected_scraper) :=
  ⟨(empty_exports_detected disconnected_scraper [] []).2.1 rfl,
   (empty_exports_detected disconnected_scraper [] []).2.2.1 1 rfl,
   (empty_exports_detected disconnected_scraper [] []).2.2.2.2.2.2⟩

/-- C9 counterexample: the stats join called with no players loaded
returns Python `None` (it prints a diagnostic and falls off the function
body), not the empty-list sentinel of its normal result type. -/
theorem stats_join_none_when_no_players :
    get_fantasy_stats_for_all_players [] [] "2024" = none ∧
    get_fantasy_stats_for_all_players [] [] "2024" ≠ some [] :=
  ⟨rfl, by decide⟩

/-- C9 amended: every league getter invoked while not connected returns
its empty sentinel (empty list or empty mapping) without raising; the
stats join invoked with no players loaded returns `None` (no value)
rather than an empty list, and also does not raise. -/
theorem not_connected_sentinels (s : ESPNLeagueScraper)
    (h : s.league = none) :
    get_teams_data s = [] ∧
    get_rosters_data s = [] ∧
    (∀ w : Option Nat, get_matchups_data s w = []) ∧
    get_league_settings s = [] ∧
    (∀ (all_stats : List (String × Row)) (season : String),
      get_fantasy_stats_for_all_players [] all_stats season = none) := by
  refine ⟨?_, ?_, ?_, ?_, ?_⟩
  · simp [get_teams_data, h]
  · simp [get_rosters_data, h]
  · intro w; simp [get_matchups_data, h]
  · simp [get_league_settings, h]
  · intro all_stats season; rfl

/-- Witness for the amended C9 on a disconnected scraper. -/
theorem not_connected_sentinels_witness :
    get_teams_data disconnected_scraper = [] ∧
    get_matchups_data disconnected_scraper (some 5) = [] ∧
    get_fantasy_stats_for_all_players [] [] "2024" = none :=
  ⟨(not_connected_sentinels disconnected_scraper rfl).1,
   (not_connected_sentinels disconnected_scraper rfl).2.2.1 (some 5),
   (not_connected_sentinels disconnected_scraper rfl).2.2.2.2 [] "2024"⟩

/-- C3 counterexample: for the bye box score (away side missing, away
score reported `0` by the collaborator) the single extracted record
holds the number `0` in its away score field, not the `"BYE"` sentinel
the claim requires for the missing side's score-holder. -/
theorem bye_score_not_sentinel :
    (get_matchups_data bye_scraper (some 3)).map (List.lookup "away_score") =
      [some (PyVal.vInt 0)] ∧
    some (PyVal.vInt 0) ≠ some (PyVal.vStr "BYE") :=
  ⟨rfl, by decide⟩

/-- C3 amended: matchup extraction produces exactly one record per box
score; when one side has no team, that side's team name is the literal
`"BYE"` and its team id is null, independent of which side is missing —
but the score-holders carry the box score's reported scores unchanged
(they are never set to the `"BYE"` sentinel). -/
theorem bye_matchup_record (s : ESPNLeagueScraper) (L : League) (w : Nat)
    (h : s.league = some L) :
    get_matchups_data s (some w) = (L.box_scores w).map (matchup_info w) ∧
    (∀ m : BoxScore, m.away_team = none →
      List.lookup "away_team" (matchup_info w m) = some (.vStr "BYE") ∧
      List.lookup "away_team_id" (matchup_info w m) = some .vNone ∧
      List.lookup "away_score" (matchup_info w m) = some m.away_score) ∧
    (∀ m : BoxScore, m.home_team = none →
      List.lookup "home_team" (matchup_info w m) = some (.vStr "BYE") ∧
      List.lookup "home_team_id" (matchup_info w m) = some .vNone ∧
      List.lookup "home_score" (matchup_info w m) = some m.home_score) := by
  refine ⟨by simp [get_matchups_data, h], ?_, ?_⟩
  · intro m hm
    refine ⟨?_, ?_, ?_⟩ <;> simp [matchup_info, hm, List.lookup]
  · intro m hm
    refine ⟨?_, ?_, ?_⟩ <;> simp [matchup_info, hm, List.lookup]

/-- Witness for the amended C3 at the concrete bye fixture. -/
theorem bye_matchup_record_witness :
    get_matchups_data bye_scraper (some 3) =
      (bye_league.box_scores 3).map (matchup_info 3) ∧
    List.lookup "away_team" (matchup_info 3 bye_box) =
      some (PyVal.vStr "BYE") ∧
    List.lookup "away_team_id" (matchup_info 3 bye_box) = some PyVal.vNone ∧
    List.lookup "away_score" (matchup_info 3 bye_box) =
      some bye_box.away_score := by
  obtain ⟨h1, h2, _⟩ := bye_matchup_record bye_scraper bye_league 3 rfl
  exact ⟨h1, (h2 bye_box rfl).1, (h2 bye_box rfl).2.1, (h2 bye_box rfl).2.2⟩

/-- C5: for a connected league whose current week is at least 1, the
"all matchups" data is exactly the concatenation of the per-week
extraction over weeks 1..current_week, in ascending week order, with no
week missing, none repeated, and no other records. -/
theorem all_matchups_concat (s : ESPNLeagueScraper) (L : League)
    (h : s.league = some L) (_hW : 1 ≤ L.current_week) :
    all_matchups_data s =
      (List.range' 1 L.current_week).flatMap
        (fun w => get_matchups_data s (some w)) ∧
    (List.range' 1 L.current_week).Nodup ∧
    List.Pairwise (· < ·) (List.range' 1 L.current_week) ∧
    (∀ w, w ∈ List.range' 1 L.current_week ↔
      1 ≤ w ∧ w ≤ L.current_week) := by
  refine ⟨?_, List.nodup_range' 1 L.current_week,
    List.pairwise_lt_range' 1 L.current_week, ?_⟩
  · have := foldl_append_eq_flatMap
      (fun w => get_matchups_data s (some w))
      (List.range' 1 L.current_week) []
    simpa [all_matchups_data, h] using this
  · intro w
    rw [List.mem_range'_1]
    omega

/-- Witness for C5 at the concrete connected fixture (current week 3). -/
theorem all_matchups_concat_witness :
    all_matchups_data bye_scraper =
      (List.range' 1 bye_league.current_week).flatMap
        (fun w => get_matchups_data bye_scraper (some w)) ∧
    (List.range' 1 bye_league.current_week).Nodup ∧
    (2 ∈ List.range' 1 bye_league.current_week ↔
      1 ≤ 2 ∧ 2 ≤ bye_league.current_week) := by
  obtain ⟨h1, h2, _, h4⟩ :=
    all_matchups_concat bye_scraper bye_league rfl (by decide)
  exact ⟨h1, h2, h4 2⟩

/-- C2: for a non-empty sequence of flat records with identical key
sets, the exporter writes a header equal to the first record's key
order followed by one body row per record in input order, and each body
row read under the header is exactly the corresponding input record (as
a mapping). -/
theorem exporter_header_and_rows (r : Row) (rs : List Row)
    (hk : ∀ x ∈ r :: rs, ∀ k : String, k ∈ keys x ↔ k ∈ keys r) :
    write_csv (r :: rs) =
      .written (keys r) ((r :: rs).map (row_values (keys r))) ∧
    ((r :: rs).map (row_values (keys r))).length = (r :: rs).length ∧
    ∀ x ∈ r :: rs, ∀ k : String,
      List.lookup k ((keys r).zip (row_values (keys r) x)) =
        List.lookup k x := by
  refine ⟨rfl, List.length_map _ _, ?_⟩
  intro x hx k
  rw [row_values, lookup_zip_map]
  by_cases hmem : k ∈ keys r
  · obtain ⟨v, hv⟩ := lookup_eq_some_of_mem_keys ((hk x hx k).mpr hmem)
    simp [hmem, hv]
  · have : k ∉ keys x := fun hc => hmem ((hk x hx k).mp hc)
    simp [hmem, lookup_eq_none_of_not_mem_keys this]

/-- Witness for C2 on two concrete records with the same key set. -/
theorem exporter_header_and_rows_witness :
    write_csv [demo_row1, demo_row2] =
      .written (keys demo_row1)
        ([demo_row1, demo_row2].map (row_values (keys demo_row1))) ∧
    List.lookup "b"
        ((keys demo_row1).zip (row_values (keys demo_row1) demo_row2)) =
      List.lookup "b" demo_row2 := by
  have h := exporter_header_and_rows demo_row1 [demo_row2] (by
    intro x hx k
    simp only [List.mem_cons, List.mem_singleton] at hx
    rcases hx with rfl | rfl | hc
    · exact Iff.rfl
    · exact Iff.rfl
    · cases hc)
  exact ⟨h.1, h.2.2 demo_row2 (by simp) "b"⟩

/-- C1: the stats join is a left join: with players loaded, every
player retained by the position allow-list produces exactly one output
record (the result is the allow-list filter mapped through the record
builder, in order); and a retained player whose id has no entry in the
season-stats mapping gets a record with the full key shape and every
numeric counter equal to 0. -/
theorem stats_join_left_join (players : List Row)
    (all_stats : List (String × Row)) (season : String)
    (hne : players ≠ []) :
    get_fantasy_stats_for_all_players players all_stats season =
      some ((players.filter position_retained).map
        (fantasy_record_of season all_stats)) ∧
    ∀ p : Row, position_retained p = true →
      (∀ sid : String, obj_get p "player_id" .vNone = .vStr sid →
        List.lookup sid all_stats = none) →
      keys (fantasy_record_of season all_stats p) = fantasy_keys ∧
      ∀ k ∈ counter_keys,
        List.lookup k (fantasy_record_of season all_stats p) =
          some (.vInt 0) := by
  constructor
  · cases players with
    | nil => exact absurd rfl hne
    | cons x xs =>
      simp only [get_fantasy_stats_for_all_players]
      rw [filterMap_ite]
  · intro p hp hstat
    have hz : stats_get all_stats (obj_get p "player_id" PyVal.vNone) = [] := by
      rcases hv : obj_get p "player_id" PyVal.vNone with _ | b | n | q | sid
      · rfl
      · rfl
      · rfl
      · rfl
      · simp [stats_get, hstat sid hv]
    refine ⟨rfl, ?_⟩
    intro k hk
    fin_cases hk <;> (simp only [fantasy_record_of]; rw [hz]; rfl)

/-- Witness for C1: one loaded QB against an empty stats payload. -/
theorem stats_join_left_join_witness :
    get_fantasy_stats_for_all_players [demo_player] [] "2024" =
      some (([demo_player].filter position_retained).map
        (fantasy_record_of "2024" [])) ∧
    keys (fantasy_record_of "2024" [] demo_player) = fantasy_keys ∧
    List.lookup "games_played" (fantasy_record_of "2024" [] demo_player) =
      some (PyVal.vInt 0) := by
  have h := stats_join_left_join [demo_player] [] "2024" (by simp)
  have h2 := h.2 demo_player (by decide) (fun sid _ => rfl)
  exact ⟨h.1, h2.1, h2.2 "games_played" (by decide)⟩

/-- C6: an entry of the bulk player directory appears in the filtered
player output iff its active flag is truthy and its sport tag equals
"nfl"; a failing entry never contributes any output record (assuming the
directory's keys are unique, as Python dict keys are). -/
theorem player_filter_active_nfl (players_dict : List (String × Row)) :
    ∀ e ∈ players_dict,
      (is_active_nfl e.2 = true →
        player_data_of e.1 e.2 ∈ fetch_all_players players_dict) ∧
      (is_active_nfl e.2 = false →
        (players_dict.map Prod.fst).Nodup →
        ∀ r ∈ fetch_all_players players_dict,
          List.lookup "player_id" r ≠ some (.vStr e.1)) := by
  intro e he
  constructor
  · intro hact
    cases players_dict with
    | nil => cases he
    | cons d ds =>
      simp only [fetch_all_players]
      exact List.mem_filterMap.mpr ⟨e, he, by simp [hact]⟩
  · intro hact hnodup r hr
    cases players_dict with
    | nil => cases hr
    | cons d ds =>
      simp only [fetch_all_players] at hr
      obtain ⟨a, ha, hfa⟩ := List.mem_filterMap.mp hr
      by_cases hcond : is_active_nfl a.2 = true
      · rw [if_pos hcond] at hfa
        obtain rfl := Option.some_inj.mp hfa
        intro hcontra
        have hl : List.lookup "player_id" (player_data_of a.1 a.2) =
            some (PyVal.vStr a.1) := rfl
        rw [hl] at hcontra
        have ha1 : a.1 = e.1 := by
          have := Option.some_inj.mp hcontra
          injection this
        have hae : a = e := List.inj_on_of_nodup_map hnodup ha he ha1
        rw [hae, hact] at hcond
        cases hcond
      · rw [if_neg hcond] at hfa
        cases hfa

/-- Witness for C6 on the two-entry demo directory. -/
theorem player_filter_active_nfl_witness :
    player_data_of "1"
        [("active", .vBool true), ("sport", .vStr "nfl"),
         ("first_name", .vStr "Ann"), ("last_name", .vStr "Ball")] ∈
      fetch_all_players demo_dict ∧
    ∀ r ∈ fetch_all_players demo_dict,
      List.lookup "player_id" r ≠ some (PyVal.vStr "2") := by
  have h1 := player_filter_active_nfl demo_dict
    ("1", [("active", .vBool true), ("sport", .vStr "nfl"),
           ("first_name", .vStr "Ann"), ("last_name", .vStr "Ball")])
    (by simp [demo_dict])
  have h2 := player_filter_active_nfl demo_dict
    ("2", [("active", .vBool false), ("sport", .vStr "nfl")])
    (by simp [demo_dict])
  exact ⟨h1.1 (by decide), fun r hr => h2.2 (by decide) (by decide) r hr⟩

theorem sample_player_row_lookup (o : RandomOracle) (i : Nat)
    (e : String × String × Nat) :
    List.lookup "player_id" (sample_player_row o i e) =
      some (.vStr (Nat.repr (1000 + i))) ∧
    List.lookup "name" (sample_player_row o i e) = some (.vStr e.1) ∧
    List.lookup "team" (sample_player_row o i e) = some (.vStr e.2.1) ∧
    List.lookup "position" (sample_player_row o i e) =
      some (.vStr (sample_position e.1)) :=
  ⟨rfl, rfl, rfl, rfl⟩

theorem sample_stat_row_lookup (o : RandomOracle) (i : Nat)
    (e : String × String × Nat) :
    List.lookup "player_id" (sample_stat_row o i e) =
      some (.vStr (Nat.repr (1000 + i))) ∧
    List.lookup "name" (sample_stat_row o i e) = some (.vStr e.1) ∧
    List.lookup "team" (sample_stat_row o i e) = some (.vStr e.2.1) ∧
    List.lookup "position" (sample_stat_row o i e) =
      some (.vStr (sample_position e.1)) := by
  simp only [sample_stat_row]
  split
  · exact ⟨rfl, rfl, rfl, rfl⟩
  · split
    · exact ⟨rfl, rfl, rfl, rfl⟩
    · split
      · exact ⟨rfl, rfl, rfl, rfl⟩
      · exact ⟨rfl, rfl, rfl, rfl⟩

set_option maxRecDepth 8000

/-- C10: the synthetic-data generator returns player and stat lists of
equal length; at every index the two records carry the same player id,
name, team and position; the ids are the decimal strings of consecutive
integers starting at 1000; and all ids are distinct (so each player has
exactly one stat record). -/
theorem sample_data_aligned (o : RandomOracle) :
    (generate_sample_data o).1.length = (generate_sample_data o).2.length ∧
    (∀ i (h1 : i < (generate_sample_data o).1.length)
        (h2 : i < (generate_sample_data o).2.length),
      List.lookup "player_id" ((generate_sample_data o).1.get ⟨i, h1⟩) =
        some (.vStr (Nat.repr (1000 + i))) ∧
      List.lookup "player_id" ((generate_sample_data o).2.get ⟨i, h2⟩) =
        some (.vStr (Nat.repr (1000 + i))) ∧
      List.lookup "name" ((generate_sample_data o).1.get ⟨i, h1⟩) =
        List.lookup "name" ((generate_sample_data o).2.get ⟨i, h2⟩) ∧
      List.lookup "team" ((generate_sample_data o).1.get ⟨i, h1⟩) =
        List.lookup "team" ((generate_sample_data o).2.get ⟨i, h2⟩) ∧
      List.lookup "position" ((generate_sample_data o).1.get ⟨i, h1⟩) =
        List.lookup "position" ((generate_sample_data o).2.get ⟨i, h2⟩)) ∧
    ((generate_sample_data o).1.map (List.lookup "player_id")).Nodup := by
  refine ⟨by simp [generate_sample_data], ?_, ?_⟩
  · intro i h1 h2
    simp only [generate_sample_data, List.get_eq_getElem, List.getElem_map,
      List.getElem_enum]
    refine ⟨(sample_player_row_lookup o i _).1,
      (sample_stat_row_lookup o i _).1, ?_, ?_, ?_⟩
    · rw [(sample_player_row_lookup o i _).2.1,
        (sample_stat_row_lookup o i _).2.1]
    · rw [(sample_player_row_lookup o i _).2.2.1,
        (sample_stat_row_lookup o i _).2.2.1]
    · rw [(sample_player_row_lookup o i _).2.2.2,
        (sample_stat_row_lookup o i _).2.2.2]
  · have hEq : (generate_sample_data o).1.map (List.lookup "player_id") =
        ((List.range sample_roster.length).map
          (fun i => Nat.repr (1000 + i))).map
            (fun s => some (PyVal.vStr s)) := by
      simp only [generate_sample_data, List.map_map]
      have hfun : (List.lookup "player_id" ∘
          fun e : Nat × (String × String × Nat) =>
            sample_player_row o e.1 e.2) =
          ((fun s => some (PyVal.vStr s)) ∘
            (fun i => Nat.repr (1000 + i)) ∘ Prod.fst) := by
        funext e
        exact (sample_player_row_lookup o e.1 e.2).1
      rw [hfun]
      rw [show ((fun s => some (PyVal.vStr s)) ∘
          (fun i => Nat.repr (1000 + i)) ∘ Prod.fst) =
          (((fun s => some (PyVal.vStr s)) ∘
            (fun i => Nat.repr (1000 + i))) ∘ Prod.fst) from rfl]
      rw [← List.map_map, List.enum_map_fst]
    have hstr : (((List.range sample_roster.length).map
        (fun i => Nat.repr (1000 + i))).map digits_val) =
        (List.range sample_roster.length).map (fun i => 1000 + i) := by
      decide
    rw [hEq]
    apply List.Nodup.map
    · intro a b hab
      simpa using hab
    · apply List.Nodup.of_map digits_val
      rw [hstr]
      apply List.Nodup.map
      · intro a b hab
        simpa using hab
      · exact List.nodup_range _

/-- Witness for C10 at the all-zero oracle and index 0. -/
theorem sample_data_aligned_witness :
    (generate_sample_data oracle0).1.length =
      (generate_sample_data oracle0).2.length ∧
    ((generate_sample_data oracle0).1.map (List.lookup "player_id")).Nodup ∧
    List.lookup "player_id"
        ((generate_sample_data oracle0).1.get ⟨0, by decide⟩) =
      some (.vStr (Nat.repr (1000 + 0))) ∧
    List.lookup "name"
        ((generate_sample_data oracle0).1.get ⟨0, by decide⟩) =
      List.lookup "name"
        ((generate_sample_data oracle0).2.get ⟨0, by decide⟩) := by
  obtain ⟨hl, hidx, hnd⟩ := sample_data_aligned oracle0
  have h1 : 0 < (generate_sample_data oracle0).1.length := by decide
  have h2 : 0 < (generate_sample_data oracle0).2.length := by decide
  obtain ⟨p1, _, p3, _, _⟩ := hidx 0 h1 h2
  exact ⟨hl, hnd, p1, p3⟩

end FantasyScraper
